import Mathlib

/-!
Verification of the Field Reconciliation scripts of this repository against
their natural-language specification.

The Python sources operate on raw PDF field-name strings with `in`
(substring) tests and `re.search` over patterns of the shape
`lit\[(\d+)\]`, `lit(\d+)\[(\d+)\]`, `#area\[(\d+)\].*#field\[(\d+)\]`,
`Table1\[(\d+)\].*Row(\d+)\[(\d+)\].*Cell(\d+)\[(\d+)\]` and
`section13[_-]?(\d+(?:-\d+)?)`.  The helpers below embed exactly those
operations on `List Char` / `String`.
-/

/-- Python's `pat in hay` substring test: `pat` occurs contiguously in `hay`. -/
def containsList (pat : List Char) : List Char → Bool
  | [] => pat.isEmpty
  | c :: t => pat.isPrefixOf (c :: t) || containsList pat t

/-- Python's `pat in hay` on strings. -/
def strContains (hay pat : String) : Bool :=
  containsList pat.data hay.data

/-- Numeric value of a decimal digit character. -/
def digitVal (c : Char) : Nat := c.toNat - 48

/-- Split a character list into its maximal leading run of decimal digits and
the remainder (the greedy `\d+`/`\d*` step of the regexes). -/
def takeDigits : List Char → List Char × List Char
  | [] => ([], [])
  | c :: t =>
    if c.isDigit then ((c :: (takeDigits t).1), (takeDigits t).2)
    else ([], c :: t)

/-- `int(...)` on a run of decimal digit characters. -/
def natOfDigits (ds : List Char) : Nat :=
  ds.foldl (fun acc c => acc * 10 + digitVal c) 0

/-- Match `pat ++ "[" ++ digits ++ "]"` exactly at the head of `s`; on success
return the parsed number together with the remainder after the `]`.  This is
one anchored attempt of `re.search(pat ++ r'\[(\d+)\]', ...)`. -/
def matchIdxAt (pat s : List Char) : Option (Nat × List Char) :=
  if pat.isPrefixOf s then
    match s.drop pat.length with
    | '[' :: rest =>
      match takeDigits rest with
      | ([], _) => none
      | (ds, ']' :: r2) => some (natOfDigits ds, r2)
      | (_, _) => none
    | _ => none
  else none

/-- Leftmost match of `pat\[(\d+)\]` in `s` (how `re.search` scans). -/
def scanIdx (pat : List Char) : List Char → Option (Nat × List Char)
  | [] => none
  | c :: t =>
    match matchIdxAt pat (c :: t) with
    | some r => some r
    | none => scanIdx pat t

/-- Rightmost match of `pat\[(\d+)\]` in `s`; this is the occurrence a greedy
`.*` immediately before the pattern ends up selecting. -/
def scanIdxLast (pat : List Char) : List Char → Option Nat
  | [] => none
  | c :: t =>
    match scanIdxLast pat t with
    | some n => some n
    | none => (matchIdxAt pat (c :: t)).map (fun r => r.1)

/-- Match `pat ++ digits ++ "[" ++ digits ++ "]"` at the head of `s`
(one anchored attempt of `re.search(pat ++ r'(\d+)\[(\d+)\]', ...)`). -/
def matchIdx2At (pat s : List Char) : Option (Nat × Nat × List Char) :=
  if pat.isPrefixOf s then
    match takeDigits (s.drop pat.length) with
    | ([], _) => none
    | (ds1, '[' :: rest) =>
      match takeDigits rest with
      | ([], _) => none
      | (ds2, ']' :: r2) => some (natOfDigits ds1, natOfDigits ds2, r2)
      | (_, _) => none
    | (_, _) => none
  else none

/-- Leftmost match of `pat(\d+)\[(\d+)\]`. -/
def scanIdx2 (pat : List Char) : List Char → Option (Nat × Nat × List Char)
  | [] => none
  | c :: t =>
    match matchIdx2At pat (c :: t) with
    | some r => some r
    | none => scanIdx2 pat t

/-- Rightmost match of `pat(\d+)\[(\d+)\]` (greedy `.*` selection). -/
def scanIdx2Last (pat : List Char) : List Char → Option (Nat × Nat)
  | [] => none
  | c :: t =>
    match scanIdx2Last pat t with
    | some r => some r
    | none => (matchIdx2At pat (c :: t)).map (fun r => (r.1, r.2.1))

/-- `re.search(pat1 ++ r'\[(\d+)\].*' ++ pat2 ++ r'\[(\d+)\]', s)`: leftmost
position where `pat1[(n)]` matches and some `pat2[(m)]` occurs in the
remainder; the greedy `.*` selects the rightmost such `pat2[(m)]`. -/
def scanTwoPats (pat1 pat2 : List Char) : List Char → Option (Nat × Nat)
  | [] => none
  | c :: t =>
    match matchIdxAt pat1 (c :: t) with
    | some (a, rest) =>
      match scanIdxLast pat2 rest with
      | some f => some (a, f)
      | none => scanTwoPats pat1 pat2 t
    | none => scanTwoPats pat1 pat2 t

/-- The `Row(\d+)\[(\d+)\].*Cell(\d+)\[(\d+)\]` tail of the `Table1` regex:
rightmost `Row` match followed by a `Cell` match, returning `(rowNum, cellNum)`
(the code uses `group(2)` and `group(4)`, the first number of each). -/
def rowCellLast : List Char → Option (Nat × Nat)
  | [] => none
  | c :: t =>
    match rowCellLast t with
    | some r => some r
    | none =>
      match matchIdx2At "Row".data (c :: t) with
      | some (rn, _, rest) =>
        match scanIdx2Last "Cell".data rest with
        | some (cn, _) => some (rn, cn)
        | none => none
      | none => none

/-- `re.search(r'Table1\[(\d+)\].*Row(\d+)\[(\d+)\].*Cell(\d+)\[(\d+)\]', s)`,
returning `(group(1), group(2), group(4))`. -/
def scanTable : List Char → Option (Nat × Nat × Nat)
  | [] => none
  | c :: t =>
    match matchIdxAt "Table1".data (c :: t) with
    | some (tn, rest) =>
      match rowCellLast rest with
      | some (rn, cn) => some (tn, rn, cn)
      | none => scanTable t
    | none => scanTable t

/-- One anchored attempt of `re.search(r'section13[_-]?(\d+(?:-\d+)?)', s)`:
literal `section13`, optionally one `_`/`-`, then digits, then optionally a
`-digits` tail; returns the captured group as characters. -/
def matchSecIdAt (s : List Char) : Option (List Char) :=
  if "section13".data.isPrefixOf s then
    let r0 := s.drop 9
    let r1 :=
      match r0 with
      | c :: rest => if c = '_' || c = '-' then rest else r0
      | [] => r0
    match takeDigits r1 with
    | ([], _) => none
    | (ds, '-' :: r3) =>
      match takeDigits r3 with
      | ([], _) => some ds
      | (ds2, _) => some (ds ++ '-' :: ds2)
    | (ds, _) => some ds
  else none

/-- Leftmost match of `section13[_-]?(\d+(?:-\d+)?)`. -/
def scanSecId : List Char → Option (List Char)
  | [] => none
  | c :: t =>
    match matchSecIdAt (c :: t) with
    | some ds => some ds
    | none => scanSecId t

/-- `re.search(pat ++ r'\[(\d+)\]', name)` returning `int(group(1))`. -/
def scanNum (pat name : String) : Option Nat :=
  (scanIdx pat.data name.data).map (fun r => r.1)

/-- `re.search(pat ++ r'(\d+)\[(\d+)\]', name)` returning both groups. -/
def scanNum2 (pat name : String) : Option (Nat × Nat) :=
  (scanIdx2 pat.data name.data).map (fun r => (r.1, r.2.1))

/-!
`src/scripts/generate-field-mappings.py`, `generate_logical_path`
(lines 22-659).  The Python function takes `(field_name, field_value,
section_pattern)` but reads only `field_name`; the embedding takes the name.
Each helper below is the body of one arm of the outer `if/elif` chain; a
helper returning `none` corresponds to the Python arm producing no `return`,
in which case control reaches the fallback at lines 603-659.
-/

/-- `field_map` of the Federal Employment (13A.1) `TextField11` arm. -/
def federalTextMap : Nat → Option String
  | 0 => some "supervisorName"
  | 1 => some "supervisorRank"
  | 2 => some "supervisorTitle"
  | 3 => some "supervisorAddress"
  | 4 => some "supervisorCity"
  | 5 => some "supervisorZip"
  | 6 => some "employerStreet"
  | 7 => some "employerCity"
  | 8 => some "employerZip"
  | 9 => some "dutyStreet"
  | 10 => some "dutyCity"
  | 11 => some "dutyZip"
  | 12 => some "extension"
  | 13 => some "otherExplanation"
  | 14 => some "supervisorAddressAlt"
  | 15 => some "supervisorCityAlt"
  | 16 => some "dutyStreetAlt"
  | 17 => some "dutyApoFpo"
  | 18 => some "dutyZipAlt"
  | 19 => some "supervisorNameAlt"
  | _ => none

/-- `state_map` of the 13A.1 `School6_State` arm. -/
def federalStateMap : Nat → Option String
  | 0 => some "supervisorState"
  | 1 => some "employerState"
  | 2 => some "dutyState"
  | 3 => some "supervisorStateAlt"
  | 4 => some "dutyStateAlt"
  | _ => none

/-- `dropdown_map` of the 13A.1 `DropDownList` arm (keyed by the list number). -/
def federalDropMap : Nat → Option String
  | 4 => some "countryCode"
  | 17 => some "employerCountry"
  | 18 => some "supervisorCountry"
  | 20 => some "dutyCountry"
  | _ => none

/-- `phone_map` of the 13A.1 `p3-t68` arm. -/
def federalPhoneMap : Nat → Option String
  | 0 => some "supervisorPhone"
  | 1 => some "employerPhone"
  | 2 => some "supervisorEmail"
  | 3 => some "rankTitle"
  | 4 => some "dutyStation"
  | _ => none

/-- 13A.1 Federal Employment arm (`'section_13_1-2' in field_name`). -/
def federalBranch (name : String) : Option String :=
  if strContains name "TextField11" then
    match scanNum "TextField11" name with
    | some num =>
      match federalTextMap num with
      | some fm => some ("section13.federalEmployment.entries[0]." ++ fm ++ ".value")
      | none => none
    | none => none
  else if strContains name "RadioButtonList" then
    match scanNum "RadioButtonList" name with
    | some 0 => some "section13.federalEmployment.entries[0].employmentType.value"
    | some 1 => some "section13.federalEmployment.entries[0].hasAdditionalInfo.value"
    | _ => none
  else if strContains name "From_Datefield_Name_2" then
    match scanNum "From_Datefield_Name_2" name with
    | some 0 => some "section13.federalEmployment.entries[0].fromDate.value"
    | some 1 => some "section13.federalEmployment.entries[0].toDate.value"
    | _ => none
  else if strContains name "School6_State" then
    match scanNum "School6_State" name with
    | some num =>
      match federalStateMap num with
      | some fm => some ("section13.federalEmployment.entries[0]." ++ fm ++ ".value")
      | none => none
    | none => none
  else if strContains name "DropDownList" then
    match scanNum2 "DropDownList" name with
    | some (listNum, _) =>
      match federalDropMap listNum with
      | some fm => some ("section13.federalEmployment.entries[0]." ++ fm ++ ".value")
      | none => none
    | none => none
  else if strContains name "p3-t68" then
    match scanNum "p3-t68" name with
    | some num =>
      match federalPhoneMap num with
      | some fm => some ("section13.federalEmployment.entries[0]." ++ fm ++ ".value")
      | none => none
    | none => none
  else if strContains name "#field" then
    match scanNum "#field" name with
    | some num =>
      some ("section13.federalEmployment.entries[0].field" ++ Nat.repr num ++ ".value")
    | none => none
  else if strContains name "p13a-1-1cb" then
    some "section13.federalEmployment.entries[0].checkbox.value"
  else none

/-- `field_map` of the Non-Federal Employment (13A.2) `TextField11` arm. -/
def nonFederalTextMap : Nat → Option String
  | 0 => some "employerName"
  | 1 => some "positionTitle"
  | 2 => some "supervisorName"
  | 3 => some "supervisorTitle"
  | 4 => some "employerStreet"
  | 5 => some "employerCity"
  | 6 => some "employerZip"
  | 7 => some "employerPhone"
  | 8 => some "extension"
  | 9 => some "dutyStreet"
  | 10 => some "dutyCity"
  | 11 => some "dutyZip"
  | 12 => some "additionalInfo"
  | 13 => some "reasonForLeaving"
  | 14 => some "supervisorAddress"
  | 15 => some "supervisorCity"
  | 16 => some "supervisorStreet"
  | 17 => some "supervisorApoFpo"
  | 18 => some "supervisorZip"
  | 19 => some "supervisorNameAlt"
  | 20 => some "employerAddress2"
  | 21 => some "employerCity2"
  | 22 => some "employerStreet2"
  | 23 => some "employerApoFpo"
  | 24 => some "employerZip2"
  | 25 => some "employerNameAlt"
  | _ => none

/-- `radio_map` of the 13A.2 `RadioButtonList` arm. -/
def nonFederalRadioMap : Nat → Option String
  | 0 => some "employmentType"
  | 1 => some "hasAdditionalInfo"
  | 2 => some "isCurrentEmployment"
  | _ => none

/-- `state_map` of the 13A.2 `School6_State` arm. -/
def nonFederalStateMap : Nat → Option String
  | 0 => some "employerState"
  | 1 => some "dutyState"
  | 2 => some "supervisorState"
  | 3 => some "employerStateAlt"
  | 4 => some "dutyStateAlt"
  | 5 => some "supervisorStateAlt"
  | 6 => some "additionalState"
  | _ => none

/-- `dropdown_map` of the 13A.2 `DropDownList` arm. -/
def nonFederalDropMap : Nat → Option String
  | 4 => some "countryCode"
  | 13 => some "employerCountry"
  | 15 => some "dutyCountry"
  | 16 => some "supervisorCountry"
  | _ => none

/-- `phone_map` of the 13A.2 `p3-t68` arm. -/
def nonFederalPhoneMap : Nat → Option String
  | 0 => some "employerPhone"
  | 1 => some "dutyPhone"
  | 2 => some "supervisorEmail"
  | 3 => some "supervisorPhone"
  | 4 => some "additionalPhone"
  | 5 => some "emergencyContact"
  | _ => none

/-- 13A.2 Non-Federal Employment arm
(`'section13_2' in field_name and 'section13_2-2' not in field_name`). -/
def nonFederalBranch (name : String) : Option String :=
  if strContains name "TextField11" then
    match scanNum "TextField11" name with
    | some num =>
      match nonFederalTextMap num with
      | some fm => some ("section13.nonFederalEmployment.entries[0]." ++ fm ++ ".value")
      | none => none
    | none => none
  else if strContains name "RadioButtonList" then
    match scanNum "RadioButtonList" name with
    | some num =>
      match nonFederalRadioMap num with
      | some fm => some ("section13.nonFederalEmployment.entries[0]." ++ fm ++ ".value")
      | none => none
    | none => none
  else if strContains name "From_Datefield_Name_2" then
    match scanNum "From_Datefield_Name_2" name with
    | some 0 => some "section13.nonFederalEmployment.entries[0].fromDate.value"
    | some 1 => some "section13.nonFederalEmployment.entries[0].toDate.value"
    | _ => none
  else if strContains name "School6_State" then
    match scanNum "School6_State" name with
    | some num =>
      match nonFederalStateMap num with
      | some fm => some ("section13.nonFederalEmployment.entries[0]." ++ fm ++ ".value")
      | none => none
    | none => none
  else if strContains name "DropDownList" then
    match scanNum2 "DropDownList" name with
    | some (listNum, _) =>
      match nonFederalDropMap listNum with
      | some fm => some ("section13.nonFederalEmployment.entries[0]." ++ fm ++ ".value")
      | none => none
    | none => none
  else if strContains name "p3-t68" then
    match scanNum "p3-t68" name with
    | some num =>
      match nonFederalPhoneMap num with
      | some fm => some ("section13.nonFederalEmployment.entries[0]." ++ fm ++ ".value")
      | none => none
    | none => none
  else if strContains name "#field" then
    match scanNum "#field" name with
    | some num =>
      some ("section13.nonFederalEmployment.entries[0].field" ++ Nat.repr num ++ ".value")
    | none => none
  else if strContains name "Table1" then
    match scanTable name.data with
    | some (tn, rn, cn) =>
      some ("section13.nonFederalEmployment.entries[0].table" ++ Nat.repr tn ++
        "Row" ++ Nat.repr rn ++ "Cell" ++ Nat.repr cn ++ ".value")
    | none => none
  else none

/-- `field_map` of the Self-Employment (13A.3) `TextField11` arm. -/
def selfTextMap : Nat → Option String
  | 0 => some "businessName"
  | 1 => some "businessType"
  | 2 => some "businessDescription"
  | 3 => some "businessStreet"
  | 4 => some "businessCity"
  | 5 => some "businessZip"
  | 6 => some "businessPhone"
  | 7 => some "businessExtension"
  | 8 => some "businessEmail"
  | 9 => some "businessAddress2"
  | 10 => some "businessCity2"
  | 11 => some "businessZip2"
  | 12 => some "additionalInfo"
  | 13 => some "businessLicense"
  | 14 => some "businessTaxId"
  | 15 => some "businessRevenue"
  | 16 => some "businessEmployees"
  | 17 => some "businessApoFpo"
  | 18 => some "businessZipAlt"
  | 19 => some "businessContact"
  | 20 => some "businessAddress3"
  | 21 => some "businessCity3"
  | 22 => some "businessStreet3"
  | 23 => some "businessApoFpo2"
  | 24 => some "businessZip3"
  | 25 => some "businessNameAlt"
  | _ => none

/-- `radio_map` of the 13A.3 `RadioButtonList` arm. -/
def selfRadioMap : Nat → Option String
  | 0 => some "businessType"
  | 1 => some "hasEmployees"
  | 2 => some "isCurrentBusiness"
  | _ => none

/-- `state_map` of the 13A.3 `School6_State` arm. -/
def selfStateMap : Nat → Option String
  | 0 => some "businessState"
  | 1 => some "businessState2"
  | 2 => some "businessState3"
  | 3 => some "businessStateAlt"
  | 4 => some "businessStateAlt2"
  | 5 => some "businessStateAlt3"
  | 6 => some "additionalState"
  | _ => none

/-- `dropdown_map` of the 13A.3 `DropDownList` arm. -/
def selfDropMap : Nat → Option String
  | 4 => some "countryCode"
  | 9 => some "businessCountry"
  | 10 => some "businessCountry2"
  | 11 => some "businessCountry3"
  | _ => none

/-- `phone_map` of the 13A.3 `p3-t68` arm. -/
def selfPhoneMap : Nat → Option String
  | 0 => some "businessPhone"
  | 1 => some "businessPhone2"
  | 2 => some "businessEmail"
  | 3 => some "businessFax"
  | 4 => some "businessWebsite"
  | _ => none

/-- 13A.3 Self-Employment arm
(`'section13_3' in field_name and 'section13_3-2' not in field_name`). -/
def selfBranch (name : String) : Option String :=
  if strContains name "TextField11" then
    match scanNum "TextField11" name with
    | some num =>
      match selfTextMap num with
      | some fm => some ("section13.selfEmployment.entries[0]." ++ fm ++ ".value")
      | none => none
    | none => none
  else if strContains name "RadioButtonList" then
    match scanNum "RadioButtonList" name with
    | some num =>
      match selfRadioMap num with
      | some fm => some ("section13.selfEmployment.entries[0]." ++ fm ++ ".value")
      | none => none
    | none => none
  else if strContains name "From_Datefield_Name_2" then
    match scanNum "From_Datefield_Name_2" name with
    | some 0 => some "section13.selfEmployment.entries[0].fromDate.value"
    | some 1 => some "section13.selfEmployment.entries[0].toDate.value"
    | _ => none
  else if strContains name "School6_State" then
    match scanNum "School6_State" name with
    | some num =>
      match selfStateMap num with
      | some fm => some ("section13.selfEmployment.entries[0]." ++ fm ++ ".value")
      | none => none
    | none => none
  else if strContains name "DropDownList" then
    match scanNum2 "DropDownList" name with
    | some (listNum, _) =>
      match selfDropMap listNum with
      | some fm => some ("section13.selfEmployment.entries[0]." ++ fm ++ ".value")
      | none => none
    | none => none
  else if strContains name "p3-t68" then
    match scanNum "p3-t68" name with
    | some num =>
      match selfPhoneMap num with
      | some fm => some ("section13.selfEmployment.entries[0]." ++ fm ++ ".value")
      | none => none
    | none => none
  else if strContains name "#field" then
    match scanNum "#field" name with
    | some num =>
      some ("section13.selfEmployment.entries[0].field" ++ Nat.repr num ++ ".value")
    | none => none
  else none

/-- `field_map` of the Unemployment (13A.4) `TextField11` arm. -/
def unempTextMap : Nat → Option String
  | 0 => some "firstName"
  | 1 => some "lastName"
  | 2 => some "referenceStreet"
  | 3 => some "referenceCity"
  | 4 => some "referenceZip"
  | 5 => some "referencePhone"
  | 6 => some "referenceExtension"
  | 7 => some "referenceEmail"
  | 8 => some "referenceAddress2"
  | 9 => some "referenceCity2"
  | 10 => some "referenceStreet2"
  | 11 => some "referenceZip2"
  | 12 => some "additionalInfo"
  | _ => none

/-- `radio_map` of the 13A.4 `RadioButtonList` arm. -/
def unempRadioMap : Nat → Option String
  | 0 => some "hasReference"
  | 1 => some "receivedBenefits"
  | 2 => some "isCurrentlyUnemployed"
  | _ => none

/-- `date_map` of the 13A.4 `From_Datefield_Name_2` arm. -/
def unempDateMap : Nat → Option String
  | 0 => some "fromDate"
  | 1 => some "toDate"
  | 2 => some "unemploymentStartDate"
  | 3 => some "unemploymentEndDate"
  | 4 => some "benefitsStartDate"
  | 5 => some "benefitsEndDate"
  | 6 => some "additionalFromDate"
  | 7 => some "additionalToDate"
  | 8 => some "referenceFromDate"
  | 9 => some "referenceToDate"
  | _ => none

/-- `state_map` of the 13A.4 `School6_State` arm. -/
def unempStateMap : Nat → Option String
  | 0 => some "referenceState"
  | 1 => some "referenceState2"
  | 2 => some "additionalState"
  | _ => none

/-- `dropdown_map` of the 13A.4 `DropDownList` arm. -/
def unempDropMap : Nat → Option String
  | 4 => some "countryCode"
  | 6 => some "referenceCountry"
  | _ => none

/-- 13A.4 Unemployment arm (`'section13_4' in field_name`). -/
def unemploymentBranch (name : String) : Option String :=
  if strContains name "TextField11" then
    match scanNum "TextField11" name with
    | some num =>
      match unempTextMap num with
      | some fm => some ("section13.unemployment.entries[0]." ++ fm ++ ".value")
      | none => none
    | none => none
  else if strContains name "RadioButtonList" then
    match scanNum "RadioButtonList" name with
    | some num =>
      match unempRadioMap num with
      | some fm => some ("section13.unemployment.entries[0]." ++ fm ++ ".value")
      | none => none
    | none => none
  else if strContains name "From_Datefield_Name_2" then
    match scanNum "From_Datefield_Name_2" name with
    | some num =>
      match unempDateMap num with
      | some fm => some ("section13.unemployment.entries[0]." ++ fm ++ ".value")
      | none => none
    | none => none
  else if strContains name "School6_State" then
    match scanNum "School6_State" name with
    | some num =>
      match unempStateMap num with
      | some fm => some ("section13.unemployment.entries[0]." ++ fm ++ ".value")
      | none => none
    | none => none
  else if strContains name "DropDownList" then
    match scanNum2 "DropDownList" name with
    | some (listNum, _) =>
      match unempDropMap listNum with
      | some fm => some ("section13.unemployment.entries[0]." ++ fm ++ ".value")
      | none => none
    | none => none
  else if strContains name "p3-t68" then
    match scanNum "p3-t68" name with
    | some num =>
      some ("section13.unemployment.entries[0].phone" ++ Nat.repr num ++ ".value")
    | none => none
  else if strContains name "#field" then
    match scanNum "#field" name with
    | some num =>
      some ("section13.unemployment.entries[0].field" ++ Nat.repr num ++ ".value")
    | none => none
  else if strContains name "#area" then
    match scanTwoPats "#area".data "#field".data name.data with
    | some (areaNum, fieldNum) =>
      some ("section13.unemployment.entries[0].area" ++ Nat.repr areaNum ++
        "Field" ++ Nat.repr fieldNum ++ ".value")
    | none => none
  else none

/-- `field_map` of the Employment Issues (13A.5) `TextField11` arm. -/
def issuesTextMap : Nat → Option String
  | 0 => some "agencyName"
  | 1 => some "agencyAddress"
  | 2 => some "clearanceLevel"
  | 3 => some "gapExplanation"
  | 4 => some "classificationLevel"
  | 5 => some "agencyCity"
  | 6 => some "agencyStreet"
  | 7 => some "agencyZip"
  | 8 => some "agencyPhone"
  | 9 => some "agencyContact"
  | 10 => some "agencyEmail"
  | 11 => some "additionalInfo"
  | _ => none

/-- `radio_map` of the 13A.5 `RadioButtonList` arm. -/
def issuesRadioMap : Nat → Option String
  | 0 => some "hasFederalEmployment"
  | 1 => some "hasGaps"
  | _ => none

/-- `date_map` of the 13A.5 `From_Datefield_Name_2` arm. -/
def issuesDateMap : Nat → Option String
  | 0 => some "clearanceFromDate"
  | 1 => some "clearanceToDate"
  | 2 => some "employmentFromDate"
  | 3 => some "employmentToDate"
  | 4 => some "gapFromDate"
  | 5 => some "gapToDate"
  | 6 => some "additionalFromDate"
  | 7 => some "additionalToDate"
  | _ => none

/-- `state_map` of the 13A.5 `School6_State` arm. -/
def issuesStateMap : Nat → Option String
  | 0 => some "agencyState"
  | 1 => some "agencyState2"
  | 2 => some "agencyState3"
  | 3 => some "additionalState"
  | _ => none

/-- `dropdown_map` of the 13A.5 `DropDownList` arm. -/
def issuesDropMap : Nat → Option String
  | 2 => some "agencyCountry"
  | _ => none

/-- `phone_map` of the 13A.5 `p3-t68` arm. -/
def issuesPhoneMap : Nat → Option String
  | 0 => some "agencyPhone"
  | 1 => some "agencyPhone2"
  | 2 => some "agencyFax"
  | 3 => some "agencyEmail"
  | 4 => some "contactPhone"
  | 5 => some "contactPhone2"
  | 6 => some "contactEmail"
  | 7 => some "additionalPhone"
  | _ => none

/-- The inner `'#area' in field_name` arm of 13A.5 (lines 553-588): the area
number from `r'#area\[(\d+)\]'` combined with a second widget pattern. -/
def issuesAreaPart (name : String) (areaNum : Nat) : Option String :=
  if strContains name "TextField11" then
    match scanNum "TextField11" name with
    | some num =>
      some ("section13.employmentRecordIssues.area" ++ Nat.repr areaNum ++
        "Text" ++ Nat.repr num ++ ".value")
    | none => none
  else if strContains name "#field" then
    match scanNum "#field" name with
    | some num =>
      some ("section13.employmentRecordIssues.area" ++ Nat.repr areaNum ++
        "Field" ++ Nat.repr num ++ ".value")
    | none => none
  else if strContains name "DropDownList" then
    match scanNum2 "DropDownList" name with
    | some (listNum, _) =>
      some ("section13.employmentRecordIssues.area" ++ Nat.repr areaNum ++
        "Dropdown" ++ Nat.repr listNum ++ ".value")
    | none => none
  else if strContains name "From_Datefield_Name_2" then
    match scanNum "From_Datefield_Name_2" name with
    | some num =>
      some ("section13.employmentRecordIssues.area" ++ Nat.repr areaNum ++
        "Date" ++ Nat.repr num ++ ".value")
    | none => none
  else if strContains name "School6_State" then
    match scanNum "School6_State" name with
    | some num =>
      some ("section13.employmentRecordIssues.area" ++ Nat.repr areaNum ++
        "State" ++ Nat.repr num ++ ".value")
    | none => none
  else if strContains name "p3-t68" then
    match scanNum "p3-t68" name with
    | some num =>
      some ("section13.employmentRecordIssues.area" ++ Nat.repr areaNum ++
        "Phone" ++ Nat.repr num ++ ".value")
    | none => none
  else none

/-- 13A.5 Employment Issues arm (`'section13_5' in field_name`); note these
paths carry no `entries[0]` segment. -/
def issuesBranch (name : String) : Option String :=
  if strContains name "TextField11" then
    match scanNum "TextField11" name with
    | some num =>
      match issuesTextMap num with
      | some fm => some ("section13.employmentRecordIssues." ++ fm ++ ".value")
      | none => none
    | none => none
  else if strContains name "RadioButtonList" then
    match scanNum "RadioButtonList" name with
    | some num =>
      match issuesRadioMap num with
      | some fm => some ("section13.employmentRecordIssues." ++ fm ++ ".value")
      | none => none
    | none => none
  else if strContains name "From_Datefield_Name_2" then
    match scanNum "From_Datefield_Name_2" name with
    | some num =>
      match issuesDateMap num with
      | some fm => some ("section13.employmentRecordIssues." ++ fm ++ ".value")
      | none => none
    | none => none
  else if strContains name "School6_State" then
    match scanNum "School6_State" name with
    | some num =>
      match issuesStateMap num with
      | some fm => some ("section13.employmentRecordIssues." ++ fm ++ ".value")
      | none => none
    | none => none
  else if strContains name "DropDownList" then
    match scanNum2 "DropDownList" name with
    | some (listNum, _) =>
      match issuesDropMap listNum with
      | some fm => some ("section13.employmentRecordIssues." ++ fm ++ ".value")
      | none => none
    | none => none
  else if strContains name "p3-t68" then
    match scanNum "p3-t68" name with
    | some num =>
      match issuesPhoneMap num with
      | some fm => some ("section13.employmentRecordIssues." ++ fm ++ ".value")
      | none => none
    | none => none
  else if strContains name "#field" then
    match scanNum "#field" name with
    | some num =>
      some ("section13.employmentRecordIssues.field" ++ Nat.repr num ++ ".value")
    | none => none
  else if strContains name "#area" then
    match scanNum "#area" name with
    | some areaNum => issuesAreaPart name areaNum
    | none => none
  else none

/-- `generate_additional_section_mapping` (lines 661-715), for the
`section13_2-2` / `section13_3-2` / `section13_4_3` arms. -/
def generate_additional_section_mapping (name pre : String) : Option String :=
  if strContains name "TextField11" then
    match scanNum "TextField11" name with
    | some num =>
      some ("section13." ++ pre ++ ".entries[0].textField" ++ Nat.repr num ++ ".value")
    | none => none
  else if strContains name "RadioButtonList" then
    match scanNum "RadioButtonList" name with
    | some num =>
      some ("section13." ++ pre ++ ".entries[0].radioButton" ++ Nat.repr num ++ ".value")
    | none => none
  else if strContains name "From_Datefield_Name_2" then
    match scanNum "From_Datefield_Name_2" name with
    | some num =>
      some ("section13." ++ pre ++ ".entries[0].dateField" ++ Nat.repr num ++ ".value")
    | none => none
  else if strContains name "School6_State" then
    match scanNum "School6_State" name with
    | some num =>
      some ("section13." ++ pre ++ ".entries[0].state" ++ Nat.repr num ++ ".value")
    | none => none
  else if strContains name "DropDownList" then
    match scanNum2 "DropDownList" name with
    | some (listNum, _) =>
      some ("section13." ++ pre ++ ".entries[0].dropdown" ++ Nat.repr listNum ++ ".value")
    | none => none
  else if strContains name "p3-t68" then
    match scanNum "p3-t68" name with
    | some num =>
      some ("section13." ++ pre ++ ".entries[0].phone" ++ Nat.repr num ++ ".value")
    | none => none
  else if strContains name "#field" then
    match scanNum "#field" name with
    | some num =>
      some ("section13." ++ pre ++ ".entries[0].field" ++ Nat.repr num ++ ".value")
    | none => none
  else if strContains name "Table1" then
    match scanTable name.data with
    | some (tn, rn, cn) =>
      some ("section13." ++ pre ++ ".entries[0].table" ++ Nat.repr tn ++
        "Row" ++ Nat.repr rn ++ "Cell" ++ Nat.repr cn ++ ".value")
    | none => none
  else none

/-- The default fallback of `generate_logical_path` (lines 603-659): a basic
path from the `section13[_-]?(\d+(?:-\d+)?)` id plus a widget type and index
defaulting to `unknown` / `0`. -/
def fallbackPath (name : String) : Option String :=
  match scanSecId name.data with
  | none => none
  | some sidChars =>
    let sid := String.mk sidChars
    if strContains name "TextField11" then
      some ("section13.section" ++ sid ++ ".textField" ++
        Nat.repr ((scanNum "TextField11" name).getD 0) ++ ".value")
    else if strContains name "RadioButtonList" then
      some ("section13.section" ++ sid ++ ".radioButton" ++
        Nat.repr ((scanNum "RadioButtonList" name).getD 0) ++ ".value")
    else if strContains name "CheckBox" then
      some ("section13.section" ++ sid ++ ".checkBox0.value")
    else if strContains name "DropDownList" then
      some ("section13.section" ++ sid ++ ".dropdown" ++
        Nat.repr ((scanNum2 "DropDownList" name).map (fun r => r.1) |>.getD 0) ++ ".value")
    else if strContains name "School6_State" then
      some ("section13.section" ++ sid ++ ".state" ++
        Nat.repr ((scanNum "School6_State" name).getD 0) ++ ".value")
    else if strContains name "From_Datefield_Name_2" then
      some ("section13.section" ++ sid ++ ".dateField" ++
        Nat.repr ((scanNum "From_Datefield_Name_2" name).getD 0) ++ ".value")
    else if strContains name "p3-t68" then
      some ("section13.section" ++ sid ++ ".phoneField" ++
        Nat.repr ((scanNum "p3-t68" name).getD 0) ++ ".value")
    else if strContains name "#field" then
      some ("section13.section" ++ sid ++ ".genericField" ++
        Nat.repr ((scanNum "#field" name).getD 0) ++ ".value")
    else if strContains name "Table1" then
      match scanTable name.data with
      | some (tn, rn, cn) =>
        some ("section13.section" ++ sid ++ ".table" ++ Nat.repr tn ++
          "Row" ++ Nat.repr rn ++ "Cell" ++ Nat.repr cn ++ ".value")
      | none => some ("section13.section" ++ sid ++ ".tableField0.value")
    else
      some ("section13.section" ++ sid ++ ".unknown0.value")

/-- `generate_logical_path` (lines 22-659): the outer `if/elif` chain over
section markers.  The five widget-mapping arms (lines 34-589) contain no
final `return`, so when their inner patterns map nothing, control falls
through to the fallback at lines 603-659; the three additional-section arms
(lines 591-601) `return generate_additional_section_mapping(...)` directly,
including its `None` (line 715), and never reach the fallback.  Returns
`none` when the name has fewer than two dot-separated parts, when an
additional-section arm matches but maps no widget, or when even the fallback
regex fails. -/
def generate_logical_path (name : String) : Option String :=
  if (name.data.splitOn '.').length < 2 then none
  else if strContains name "section_13_1-2" then
    match federalBranch name with
    | some p => some p
    | none => fallbackPath name
  else if strContains name "section13_2" && !strContains name "section13_2-2" then
    match nonFederalBranch name with
    | some p => some p
    | none => fallbackPath name
  else if strContains name "section13_3" && !strContains name "section13_3-2" then
    match selfBranch name with
    | some p => some p
    | none => fallbackPath name
  else if strContains name "section13_4" then
    match unemploymentBranch name with
    | some p => some p
    | none => fallbackPath name
  else if strContains name "section13_5" then
    match issuesBranch name with
    | some p => some p
    | none => fallbackPath name
  else if strContains name "section13_2-2" then
    generate_additional_section_mapping name "nonFederalEmploymentAdditional"
  else if strContains name "section13_3-2" then
    generate_additional_section_mapping name "selfEmploymentAdditional"
  else if strContains name "section13_4_3" then
    generate_additional_section_mapping name "unemploymentAdditional"
  else fallbackPath name

/-!
`main` of `src/scripts/generate-field-mappings.py` (lines 717-769): the
aggregation loop.  `mappings` is a Python dict keyed by the *logical path*
(`mappings[logical_path] = field_name`), embedded as an association list with
insert-or-replace; `unmapped_fields` collects names whose
`generate_logical_path` is falsy; `section_stats` counts mapped names per
section marker.
-/

/-- Per-section counters of `section_stats` (lines 752-767). -/
structure SectionStats where
  federal : Nat
  nonFederal : Nat
  nonFederalAdd : Nat
  selfEmp : Nat
  selfEmpAdd : Nat
  unemployment : Nat
  issues : Nat
  other : Nat
deriving Repr, DecidableEq

/-- All-zero initial counters (a fresh `defaultdict(int)`). -/
def SectionStats.init : SectionStats := ⟨0, 0, 0, 0, 0, 0, 0, 0⟩

/-- The `elif` chain bumping `section_stats` for one mapped name. -/
def bumpStats (s : SectionStats) (name : String) : SectionStats :=
  if strContains name "section_13_1-2" then { s with federal := s.federal + 1 }
  else if strContains name "section13_2" && !strContains name "section13_2-2" then
    { s with nonFederal := s.nonFederal + 1 }
  else if strContains name "section13_2-2" then { s with nonFederalAdd := s.nonFederalAdd + 1 }
  else if strContains name "section13_3" && !strContains name "section13_3-2" then
    { s with selfEmp := s.selfEmp + 1 }
  else if strContains name "section13_3-2" then { s with selfEmpAdd := s.selfEmpAdd + 1 }
  else if strContains name "section13_4" then { s with unemployment := s.unemployment + 1 }
  else if strContains name "section13_5" then { s with issues := s.issues + 1 }
  else { s with other := s.other + 1 }

/-- `mappings[k] = v` on a Python dict held as an association list: replace in
place when the key exists, append otherwise. -/
def insertReplace (l : List (String × String)) (k v : String) : List (String × String) :=
  if l.any (fun kv => kv.1 = k) then
    l.map (fun kv => if kv.1 = k then (k, v) else kv)
  else l ++ [(k, v)]

/-- Dict lookup on the association list. -/
def lookupA (l : List (String × String)) (k : String) : Option String :=
  (l.find? (fun kv => kv.1 = k)).map (fun kv => kv.2)

/-- The state of one run of `main`'s loop. -/
structure MainResult where
  mappings : List (String × String)
  unmapped : List String
  stats : SectionStats
deriving Repr, DecidableEq

/-- Empty starting state. -/
def MainResult.init : MainResult := ⟨[], [], SectionStats.init⟩

/-- One iteration of the loop body (lines 738-769): note `if logical_path:`
tests Python truthiness, so an empty-string path would also count as
unmapped. -/
def processField (acc : MainResult) (name : String) : MainResult :=
  match generate_logical_path name with
  | some p =>
    if p = "" then { acc with unmapped := acc.unmapped ++ [name] }
    else
      { acc with
        mappings := insertReplace acc.mappings p name
        stats := bumpStats acc.stats name }
  | none => { acc with unmapped := acc.unmapped ++ [name] }

/-- The whole loop over the batch of raw field names. -/
def processFields (fields : List String) : MainResult :=
  fields.foldl processField MainResult.init

/-- A name counts as mapped exactly when its path is truthy (lines 748-749). -/
def isMapped (name : String) : Bool :=
  match generate_logical_path name with
  | some p => !(p = "")
  | none => false

/-!
`src/calculate_field_distribution.py` (lines 38-88) and
`src/verify_field_pattern.py` (lines 28-48): Section 16 group resolution.
-/

/-- First `#area[(\d+)]` marker of a name (`re.search(r'#area\[(\d+)\]', ...)`). -/
def areaIdx (name : String) : Option Nat := scanNum "#area" name

/-- The partition loop of `calculate_field_distribution` (lines 38-45):
`#area`-marked fields keyed by their area, the rest into the shared list. -/
def splitByArea : List String → List (Nat × String) × List String
  | [] => ([], [])
  | f :: rest =>
    match areaIdx f with
    | some a => ((a, f) :: (splitByArea rest).1, (splitByArea rest).2)
    | none => ((splitByArea rest).1, f :: (splitByArea rest).2)

/-- Distinct area keys (`section16_3_by_area.keys()`). -/
def areaKeys (fields : List String) : List Nat :=
  ((splitByArea fields).1.map Prod.fst).dedup

/-- `num_people = len(section16_3_by_area)` (line 60). -/
def numPeople (fields : List String) : Nat := (areaKeys fields).length

/-- `shared_fields_count = len(section16_3_shared)` (line 54). -/
def sharedCount (fields : List String) : Nat := ((splitByArea fields).2).length

/-- `shared_per_person = shared_fields_count // num_people` (line 62). -/
def sharedPerPerson (fields : List String) : Nat :=
  sharedCount fields / numPeople fields

/-- Fields recorded for one area (`len(section16_3_by_area[area])`). -/
def areaCount (fields : List String) (a : Nat) : Nat :=
  ((splitByArea fields).1.filter (fun p => p.1 = a)).length

/-- Insertion step of a structural sort (`sorted(...)` of Python). -/
def insertSorted (a : Nat) : List Nat → List Nat
  | [] => [a]
  | b :: t => if a ≤ b then a :: b :: t else b :: insertSorted a t

/-- Ascending sort of the area keys (`sorted(section16_3_by_area.keys())`). -/
def sortNat (l : List Nat) : List Nat := l.foldr insertSorted []

/-- Lines 70-73: per-person totals `area_specific + shared_per_person`,
one per distinct area in sorted order. -/
def perPersonTotals (fields : List String) : List Nat :=
  (sortNat (areaKeys fields)).map
    (fun a => areaCount fields a + sharedPerPerson fields)

/-- Aggregate of the per-person totals of lines 70-73. -/
def aggregateTotal (fields : List String) : Nat := (perPersonTotals fields).sum

/-- `verify_field_pattern` (lines 36-44): person from the `TextField11` index
ranges; `0` is the bucket the code prints as `Unknown person`. -/
def personOfIdx (idx : Nat) : Nat :=
  if 0 ≤ idx ∧ idx ≤ 10 then 1
  else if 11 ≤ idx ∧ idx ≤ 21 then 2
  else if 22 ≤ idx ∧ idx ≤ 32 then 3
  else 0

/-- The loop of `verify_field_pattern` lines 28-48: `TextField11[i]` fields
are tagged `(personOfIdx i, i)`, everything else goes to `other_fields`. -/
def verifySplit : List String → List (Nat × Nat × String) × List String
  | [] => ([], [])
  | f :: rest =>
    match scanNum "TextField11" f with
    | some i => ((personOfIdx i, i, f) :: (verifySplit rest).1, (verifySplit rest).2)
    | none => ((verifySplit rest).1, f :: (verifySplit rest).2)

/-!
`src/generate_section16_interfaces.py`, `analyze_section16_1_fields`
(lines 99-126) and `analyze_section16_3_fields` (lines 128-149): the group
bucket chosen for one `(name, label)` pair.
-/

/-- Python's `str.lower()` (the labels involved are ASCII). -/
def strLower (s : String) : String := ⟨s.data.map Char.toLower⟩

/-- Bucket of `analyze_section16_3_fields` for one field. -/
def analyze16_3_group (name label : String) : String :=
  let l := strLower label
  if strContains name "#area[0]" || strContains l "entry #1" then "person1"
  else if strContains name "#area[1]" || strContains l "entry #2" then "person2"
  else if strContains name "#area[2]" || strContains l "entry #3" then "person3"
  else "shared"

/-- Bucket of `analyze_section16_1_fields` for one field. -/
def analyze16_1_group (name label : String) : String :=
  let l := strLower label
  if strContains l "organization" || strContains name "TextField11[0]" then "organization"
  else if strContains l "contact #1" || strContains name "#area[2]" then "contact1"
  else if strContains l "contact #2" || strContains name "#area[5]" then "contact2"
  else if strContains l "date" || strContains name "From_Datefield" then "dates"
  else if strContains l "position" || strContains l "rank" || strContains l "division" then
    "service_details"
  else "other"

/-!
`src/scripts/verify-section13-complete-1086.py`, `verify_coverage`
(lines 123-168).  Python sets become `Finset String`; the `by_type` lists of
field dicts become lists of names (only `f['name']` is read); float division
becomes exact division in `ℚ`, wrapped in `Option` so that a
`ZeroDivisionError` would surface as `none`.  The `if ... else 0` guards of
the source are kept as written.
-/

/-- The parts of `field_analysis` that `verify_coverage` reads. -/
structure FieldAnalysis where
  string_values : Finset String
  byType : String → List String
  total_fields : Nat

/-- The four mapping sets extracted from the interface file. -/
structure InterfaceMappings where
  string_values : Finset String
  checkbox_fields : Finset String
  radio_fields : Finset String
  dropdown_fields : Finset String

/-- The `results` dict. -/
structure CoverageResults where
  string_coverage : ℚ
  checkbox_coverage : ℚ
  radio_coverage : ℚ
  dropdown_coverage : ℚ
  total_coverage : ℚ
  missing_strings : Finset String
  missing_checkboxes : Finset String
  missing_radios : Finset String
  missing_dropdowns : Finset String
  total_mapped : Nat

/-- Python `/`: raises `ZeroDivisionError` on a zero denominator, modelled as
`none`. -/
def pydiv (a b : ℚ) : Option ℚ := if b = 0 then none else some (a / b)

/-- `verify_coverage` (lines 123-168). -/
def verify_coverage (fa : FieldAnalysis) (im : InterfaceMappings) :
    Option CoverageResults := do
  let string_matches := fa.string_values ∩ im.string_values
  let string_coverage ←
    if fa.string_values = ∅ then some (0 : ℚ)
    else (pydiv string_matches.card fa.string_values.card).map (fun q => q * 100)
  let checkbox_fields := fa.byType "PDFCheckBox"
  let checkbox_matches := checkbox_fields.toFinset ∩ im.checkbox_fields
  let checkbox_coverage ←
    if checkbox_fields = [] then some (0 : ℚ)
    else (pydiv checkbox_matches.card checkbox_fields.length).map (fun q => q * 100)
  let radio_fields := fa.byType "PDFRadioGroup"
  let radio_matches := radio_fields.toFinset ∩ im.radio_fields
  let radio_coverage ←
    if radio_fields = [] then some (0 : ℚ)
    else (pydiv radio_matches.card radio_fields.length).map (fun q => q * 100)
  let dropdown_fields := fa.byType "PDFDropdown"
  let dropdown_matches := dropdown_fields.toFinset ∩ im.dropdown_fields
  let dropdown_coverage ←
    if dropdown_fields = [] then some (0 : ℚ)
    else (pydiv dropdown_matches.card dropdown_fields.length).map (fun q => q * 100)
  let total_mapped :=
    string_matches.card + checkbox_matches.card + radio_matches.card + dropdown_matches.card
  let total_coverage ←
    if fa.total_fields = 0 then some (0 : ℚ)
    else (pydiv total_mapped fa.total_fields).map (fun q => q * 100)
  pure
    { string_coverage := string_coverage
      checkbox_coverage := checkbox_coverage
      radio_coverage := radio_coverage
      dropdown_coverage := dropdown_coverage
      total_coverage := total_coverage
      missing_strings := fa.string_values \ im.string_values
      missing_checkboxes := checkbox_fields.toFinset \ im.checkbox_fields
      missing_radios := radio_fields.toFinset \ im.radio_fields
      missing_dropdowns := dropdown_fields.toFinset \ im.dropdown_fields
      total_mapped := total_mapped }

/-!
Group configuration with declared, checked ranges.

Modelled from the spec: no `GroupConfig` constructor or `AmbiguousRangeError`
exists under `src/` — `verify_field_pattern.py` hardcodes the three disjoint
index ranges as an `if/elif` chain — so the constructor-time overlap check of
spec section 4.3 is modelled here from the spec's words.
-/

/-- Modelled from the spec: one half-open range `[lo, hi) → group` of the
range table of spec section 4.3. -/
structure RangeEntry where
  lo : Nat
  hi : Nat
  group : Nat
deriving Repr, DecidableEq

/-- Membership of a positional index in a half-open range. -/
def RangeEntry.containsIdx (r : RangeEntry) (i : Nat) : Bool :=
  r.lo ≤ i && i < r.hi

/-- Two half-open ranges intersect. -/
def rangesOverlap (r s : RangeEntry) : Bool :=
  max r.lo s.lo < min r.hi s.hi

/-- Modelled from the spec: the structured error of spec section 7,
identifying the offending range pair. -/
structure AmbiguousRangeError where
  first : RangeEntry
  second : RangeEntry
deriving Repr, DecidableEq

/-- First overlapping pair among the configured entries, if any. -/
def findOverlap : List RangeEntry → Option (RangeEntry × RangeEntry)
  | [] => none
  | r :: rest =>
    match rest.find? (fun s => rangesOverlap r s) with
    | some s => some (r, s)
    | none => findOverlap rest

/-- Modelled from the spec: a validated range table for one
`(sectionId, subsectionVariant, typeTag)` triple. -/
structure GroupConfig where
  table : List RangeEntry
deriving Repr, DecidableEq

/-- Modelled from the spec: constructing a `GroupConfig` checks the declared
ranges for overlaps before any record is processed and fails with
`AmbiguousRangeError` when two of them intersect. -/
def mkGroupConfig (entries : List RangeEntry) :
    Except AmbiguousRangeError GroupConfig :=
  match findOverlap entries with
  | some (r, s) => Except.error ⟨r, s⟩
  | none => Except.ok ⟨entries⟩

/-- Modelled from the spec: tier-2 resolution — the range containing the
positional index, `none` meaning the field is shared (spec section 4.3). -/
def resolveGroup (cfg : GroupConfig) (i : Nat) : Option Nat :=
  (cfg.table.find? (fun r => r.containsIdx i)).map (fun r => r.group)

/-! General lemmas bridging the executable string operations with
`List` prefix/infix predicates. -/

theorem isPrefixOf_true_iff : ∀ (l₁ l₂ : List Char), l₁.isPrefixOf l₂ = true ↔ l₁ <+: l₂
  | [], l₂ => by simp [List.isPrefixOf]
  | a :: t, [] => by simp [List.isPrefixOf]
  | a :: t, b :: u => by
    simp only [List.isPrefixOf, Bool.and_eq_true, beq_iff_eq, List.cons_prefix_cons]
    exact and_congr Iff.rfl (isPrefixOf_true_iff t u)

theorem containsList_true_iff : ∀ (pat hay : List Char),
    containsList pat hay = true ↔ pat <:+: hay
  | pat, [] => by
    simp only [containsList, List.isEmpty_iff]
    constructor
    · rintro rfl; exact List.infix_rfl
    · intro h; exact List.eq_nil_of_infix_nil h
  | pat, c :: t => by
    rw [containsList, Bool.or_eq_true, isPrefixOf_true_iff, containsList_true_iff pat t,
      List.infix_cons_iff]

theorem strContains_of_sub (name : String) (p q : String)
    (hpq : containsList p.data q.data = true)
    (h : strContains name q = true) : strContains name p = true := by
  rw [strContains, containsList_true_iff] at h ⊢
  exact ((containsList_true_iff _ _).mp hpq).trans h

theorem strData_append (a b : String) : (a ++ b).data = a.data ++ b.data := rfl

theorem pre_extend (tgt lit : List Char) (h : tgt <+: lit) (s : List Char) :
    tgt <+: lit ++ s := h.trans (List.prefix_append lit s)

theorem pre_cancel (l m₁ m₂ : List Char) (h : m₁ <+: m₂) : l ++ m₁ <+: l ++ m₂ := by
  obtain ⟨t, ht⟩ := h
  exact ⟨t, by rw [List.append_assoc, ht]⟩

theorem not_tgt_of_lit (tgt lit p : List Char) (hlit : lit <+: p)
    (h1 : tgt.isPrefixOf lit = false) (h2 : lit.isPrefixOf tgt = false) :
    ¬ tgt <+: p := by
  intro hc
  rcases List.prefix_or_prefix_of_prefix hc hlit with h | h
  · rw [← isPrefixOf_true_iff] at h
    rw [h] at h1
    exact Bool.noConfusion h1
  · rw [← isPrefixOf_true_iff] at h
    rw [h] at h2
    exact Bool.noConfusion h2

/-! Every arm of `generate_logical_path` emits paths under a fixed literal
head; one lemma per arm. -/

theorem federalBranch_shape (name p : String) (h : federalBranch name = some p) :
    "section13.federalEmployment.entries[0].".data <+: p.data := by
  unfold federalBranch at h
  repeat' split at h
  all_goals (try exact Option.noConfusion h)
  all_goals injection h with h
  all_goals subst h
  all_goals simp only [strData_append, List.append_assoc]
  all_goals first
    | exact (isPrefixOf_true_iff _ _).mp rfl
    | (refine pre_extend _ _ ?_ _; exact (isPrefixOf_true_iff _ _).mp rfl)

theorem nonFederalBranch_shape (name p : String) (h : nonFederalBranch name = some p) :
    "section13.nonFederalEmployment.entries[0].".data <+: p.data := by
  unfold nonFederalBranch at h
  repeat' split at h
  all_goals (try exact Option.noConfusion h)
  all_goals injection h with h
  all_goals subst h
  all_goals simp only [strData_append, List.append_assoc]
  all_goals first
    | exact (isPrefixOf_true_iff _ _).mp rfl
    | (refine pre_extend _ _ ?_ _; exact (isPrefixOf_true_iff _ _).mp rfl)

theorem selfBranch_shape (name p : String) (h : selfBranch name = some p) :
    "section13.selfEmployment.entries[0].".data <+: p.data := by
  unfold selfBranch at h
  repeat' split at h
  all_goals (try exact Option.noConfusion h)
  all_goals injection h with h
  all_goals subst h
  all_goals simp only [strData_append, List.append_assoc]
  all_goals first
    | exact (isPrefixOf_true_iff _ _).mp rfl
    | (refine pre_extend _ _ ?_ _; exact (isPrefixOf_true_iff _ _).mp rfl)

theorem unemploymentBranch_shape (name p : String) (h : unemploymentBranch name = some p) :
    "section13.unemployment.entries[0].".data <+: p.data := by
  unfold unemploymentBranch at h
  repeat' split at h
  all_goals (try exact Option.noConfusion h)
  all_goals injection h with h
  all_goals subst h
  all_goals simp only [strData_append, List.append_assoc]
  all_goals first
    | exact (isPrefixOf_true_iff _ _).mp rfl
    | (refine pre_extend _ _ ?_ _; exact (isPrefixOf_true_iff _ _).mp rfl)

theorem issuesAreaPart_shape (name : String) (a : Nat) (p : String)
    (h : issuesAreaPart name a = some p) :
    "section13.employmentRecordIssues.".data <+: p.data := by
  unfold issuesAreaPart at h
  repeat' split at h
  all_goals (try exact Option.noConfusion h)
  all_goals injection h with h
  all_goals subst h
  all_goals simp only [strData_append, List.append_assoc]
  all_goals exact (isPrefixOf_true_iff _ _).mp rfl

theorem issuesBranch_shape (name p : String) (h : issuesBranch name = some p) :
    "section13.employmentRecordIssues.".data <+: p.data := by
  unfold issuesBranch at h
  repeat' split at h
  all_goals (try exact Option.noConfusion h)
  all_goals (try (exact issuesAreaPart_shape _ _ _ h))
  all_goals injection h with h
  all_goals subst h
  all_goals simp only [strData_append, List.append_assoc]
  all_goals first
    | exact (isPrefixOf_true_iff _ _).mp rfl
    | (refine pre_extend _ _ ?_ _; exact (isPrefixOf_true_iff _ _).mp rfl)

theorem additional_shape (name pre p : String)
    (h : generate_additional_section_mapping name pre = some p) :
    ("section13." ++ pre ++ ".entries[0].").data <+: p.data := by
  unfold generate_additional_section_mapping at h
  repeat' split at h
  all_goals (try exact Option.noConfusion h)
  all_goals injection h with h
  all_goals subst h
  all_goals simp only [strData_append, List.append_assoc]
  all_goals
    refine pre_cancel _ _ _ (pre_cancel _ _ _ ?_)
  all_goals
    refine pre_extend _ _ ?_ _
  all_goals exact (isPrefixOf_true_iff _ _).mp rfl

theorem fallbackPath_shape (name p : String) (h : fallbackPath name = some p) :
    "section13.section".data <+: p.data := by
  unfold fallbackPath at h
  repeat' split at h
  all_goals (try exact Option.noConfusion h)
  all_goals injection h with h
  all_goals subst h
  all_goals simp only [strData_append, List.append_assoc]
  all_goals first
    | exact (isPrefixOf_true_iff _ _).mp rfl
    | (refine pre_extend _ _ ?_ _; exact (isPrefixOf_true_iff _ _).mp rfl)

/-! Laws of the `main`-loop aggregation. -/

theorem find?_map_replace (t : List (String × String)) (k v k' : String)
    (hne : k' ≠ k) :
    List.find? (fun kv => kv.1 = k') (t.map (fun kv => if kv.1 = k then (k, v) else kv)) =
      List.find? (fun kv => kv.1 = k') t := by
  induction t with
  | nil => simp
  | cons kv t ih =>
    simp only [List.map_cons]
    by_cases hk : kv.1 = k
    · rw [if_pos hk, List.find?_cons_of_neg _ (by simp [Ne.symm hne]),
        List.find?_cons_of_neg _ (by simp [hk, Ne.symm hne])]
      exact ih
    · rw [if_neg hk]
      by_cases hk' : kv.1 = k'
      · rw [List.find?_cons_of_pos _ (by simp [hk']), List.find?_cons_of_pos _ (by simp [hk'])]
      · rw [List.find?_cons_of_neg _ (by simp [hk']), List.find?_cons_of_neg _ (by simp [hk'])]
        exact ih

theorem lookupA_insertReplace_self (l : List (String × String)) (k v : String) :
    lookupA (insertReplace l k v) k = some v := by
  unfold insertReplace lookupA
  split
  · next hany =>
    induction l with
    | nil => simp at hany
    | cons kv t ih =>
      simp only [List.map_cons]
      by_cases hk : kv.1 = k
      · simp [hk, List.find?]
      · simp only [if_neg hk, List.find?]
        rw [show (decide (kv.1 = k)) = false by simp [hk]]
        simp only [List.any_cons, Bool.or_eq_true] at hany
        rcases hany with h1 | h2
        · exact absurd (by simpa using h1) hk
        · exact ih h2
  · next hany =>
    induction l with
    | nil => simp [List.find?]
    | cons kv t ih =>
      simp only [List.any_cons, Bool.or_eq_true, not_or] at hany
      simp only [List.cons_append, List.find?]
      rw [show (decide (kv.1 = k)) = false by simpa using hany.1]
      exact ih hany.2

theorem lookupA_insertReplace_ne (l : List (String × String)) (k v k' : String)
    (hne : k' ≠ k) : lookupA (insertReplace l k v) k' = lookupA l k' := by
  unfold insertReplace lookupA
  split
  · rw [find?_map_replace l k v k' hne]
  · rw [List.find?_append]
    cases h : List.find? (fun kv => kv.1 = k') l with
    | some kv => simp [h]
    | none => simp [h, Ne.symm hne]

theorem processFields_concat (fields : List String) (a : String) :
    processFields (fields ++ [a]) = processField (processFields fields) a := by
  unfold processFields
  rw [List.foldl_append]
  rfl

/-- Componentwise sum of two counter records. -/
def addStats (s t : SectionStats) : SectionStats :=
  ⟨s.federal + t.federal, s.nonFederal + t.nonFederal, s.nonFederalAdd + t.nonFederalAdd,
   s.selfEmp + t.selfEmp, s.selfEmpAdd + t.selfEmpAdd, s.unemployment + t.unemployment,
   s.issues + t.issues, s.other + t.other⟩

theorem bumpStats_add (s : SectionStats) (n : String) :
    bumpStats s n = addStats s (bumpStats SectionStats.init n) := by
  unfold bumpStats addStats SectionStats.init
  repeat' split
  all_goals rfl

theorem bumpStats_rcomm (s : SectionStats) (a b : String) :
    bumpStats (bumpStats s a) b = bumpStats (bumpStats s b) a := by
  rw [bumpStats_add s a, bumpStats_add s b, bumpStats_add (addStats s _) b,
    bumpStats_add (addStats s _) a]
  unfold addStats
  simp only [SectionStats.mk.injEq]
  refine ⟨?_, ?_, ?_, ?_, ?_, ?_, ?_, ?_⟩ <;> exact Nat.add_right_comm _ _ _

theorem lookup_last_law (fields : List String) (p : String) (hp : p ≠ "") :
    lookupA (processFields fields).mappings p =
      (fields.filter (fun n => generate_logical_path n == some p)).getLast? := by
  induction fields using List.reverseRecOn with
  | nil => rfl
  | append_singleton t a ih =>
    rw [processFields_concat, List.filter_append]
    cases hg : generate_logical_path a with
    | none =>
      have hf : List.filter (fun n => generate_logical_path n == some p) [a] = [] := by
        simp [hg]
      simp only [processField, hg, hf, List.append_nil]
      exact ih
    | some q =>
      by_cases hq : q = ""
      · subst hq
        have hf : List.filter (fun n => generate_logical_path n == some p) [a] = [] := by
          simp only [List.filter, hg]
          rw [show (some "" == some p) = false by simp [Ne.symm hp]]
        simp only [processField, hg, if_pos rfl, hf, List.append_nil]
        exact ih
      · simp only [processField, hg, if_neg hq]
        by_cases hqp : q = p
        · subst hqp
          have hf : List.filter (fun n => generate_logical_path n == some q) [a] = [a] := by
            simp [hg]
          rw [hf, lookupA_insertReplace_self, List.getLast?_concat]
        · have hf : List.filter (fun n => generate_logical_path n == some p) [a] = [] := by
            simp only [List.filter, hg]
            rw [show (some q == some p) = false by simp [hqp]]
          rw [hf, List.append_nil, lookupA_insertReplace_ne _ _ _ _ (Ne.symm hqp)]
          exact ih

theorem unmapped_law (fields : List String) :
    (processFields fields).unmapped = fields.filter (fun n => !(isMapped n)) := by
  induction fields using List.reverseRecOn with
  | nil => rfl
  | append_singleton t a ih =>
    rw [processFields_concat, List.filter_append]
    cases hg : generate_logical_path a with
    | none =>
      have hm : isMapped a = false := by simp [isMapped, hg]
      simp [processField, hg, hm, ih]
    | some q =>
      by_cases hq : q = ""
      · subst hq
        have hm : isMapped a = false := by simp [isMapped, hg]
        simp [processField, hg, hm, ih]
      · have hm : isMapped a = true := by simp [isMapped, hg, hq]
        simp [processField, hg, hq, hm, ih]

theorem stats_law (fields : List String) :
    (processFields fields).stats =
      (fields.filter (fun n => isMapped n)).foldl bumpStats SectionStats.init := by
  induction fields using List.reverseRecOn with
  | nil => rfl
  | append_singleton t a ih =>
    rw [processFields_concat, List.filter_append]
    cases hg : generate_logical_path a with
    | none =>
      have hm : isMapped a = false := by simp [isMapped, hg]
      simp [processField, hg, hm, ih]
    | some q =>
      by_cases hq : q = ""
      · subst hq
        have hm : isMapped a = false := by simp [isMapped, hg]
        simp [processField, hg, hm, ih]
      · have hm : isMapped a = true := by simp [isMapped, hg, hq]
        simp [processField, hg, hq, hm, ih, List.foldl_append]

/-! Dispatch lemmas for `generate_logical_path` and the aggregation laws. -/

theorem glp_no_unempAdd (name p : String) (h : generate_logical_path name = some p) :
    ¬ "section13.unemploymentAdditional".data <+: p.data := by
  unfold generate_logical_path at h
  repeat' split at h
  all_goals (try exact Option.noConfusion h)
  all_goals (try (injection h with h; subst h))
  all_goals first
    | exact not_tgt_of_lit _ _ _ (federalBranch_shape _ _ (by assumption)) rfl rfl
    | exact not_tgt_of_lit _ _ _ (nonFederalBranch_shape _ _ (by assumption)) rfl rfl
    | exact not_tgt_of_lit _ _ _ (selfBranch_shape _ _ (by assumption)) rfl rfl
    | exact not_tgt_of_lit _ _ _ (unemploymentBranch_shape _ _ (by assumption)) rfl rfl
    | exact not_tgt_of_lit _ _ _ (issuesBranch_shape _ _ (by assumption)) rfl rfl
    | exact not_tgt_of_lit _ _ _ (fallbackPath_shape _ _ h) rfl rfl
    | exact not_tgt_of_lit _ _ _ (additional_shape _ _ _ h) rfl rfl
    | exact absurd (strContains_of_sub name "section13_4" "section13_4_3" rfl
        (by assumption)) (by assumption)

theorem glp_1343_dispatch (name p : String)
    (h1343 : strContains name "section13_4_3" = true)
    (hfed : strContains name "section_13_1-2" = false)
    (h2 : strContains name "section13_2" = false)
    (h3 : strContains name "section13_3" = false)
    (hdot : 2 ≤ (name.data.splitOn '.').length)
    (hb : unemploymentBranch name = some p) :
    generate_logical_path name = some p := by
  have h4 : strContains name "section13_4" = true :=
    strContains_of_sub name "section13_4" "section13_4_3" rfl h1343
  unfold generate_logical_path
  rw [if_neg (by omega)]
  simp only [hfed, h2, h3, h4, Bool.false_eq_true, if_false, Bool.false_and, if_true, hb]

theorem fallback_total (name : String) (sid : List Char)
    (hsid : scanSecId name.data = some sid) : (fallbackPath name).isSome = true := by
  unfold fallbackPath
  rw [hsid]
  repeat' split
  all_goals (try rfl)
  all_goals simp_all

theorem glp_total_of_sec (name : String) (hdot : 2 ≤ (name.data.splitOn '.').length)
    (hsec : scanSecId name.data ≠ none)
    (h22 : strContains name "section13_2-2" = false)
    (h32 : strContains name "section13_3-2" = false)
    (h43 : strContains name "section13_4_3" = false) :
    (generate_logical_path name).isSome = true := by
  obtain ⟨sid, hsid⟩ := Option.ne_none_iff_exists'.mp hsec
  unfold generate_logical_path
  rw [if_neg (by omega)]
  repeat' split
  all_goals first
    | rfl
    | exact fallback_total name sid hsid
    | simp_all

theorem insertSorted_perm (a : Nat) (l : List Nat) : (insertSorted a l).Perm (a :: l) := by
  induction l with
  | nil => exact List.Perm.refl _
  | cons b t ih =>
    unfold insertSorted
    split
    · exact List.Perm.refl _
    · exact (ih.cons b).trans (List.Perm.swap a b t)

theorem sortNat_perm (l : List Nat) : (sortNat l).Perm l := by
  induction l with
  | nil => exact List.Perm.refl _
  | cons a t ih =>
    exact (insertSorted_perm a (sortNat t)).trans (ih.cons a)

theorem areaCount_eq_count (fields : List String) (a : Nat) :
    areaCount fields a = ((splitByArea fields).1.map Prod.fst).count a := by
  unfold areaCount
  rw [List.count, List.countP_map, ← List.countP_eq_length_filter]
  rfl

theorem aggregate_law (fields : List String) :
    aggregateTotal fields =
      (splitByArea fields).1.length + numPeople fields * sharedPerPerson fields := by
  unfold aggregateTotal perPersonTotals
  have hperm :
      ((sortNat (areaKeys fields)).map
          (fun a => areaCount fields a + sharedPerPerson fields)).sum =
        ((areaKeys fields).map
          (fun a => areaCount fields a + sharedPerPerson fields)).sum :=
    ((sortNat_perm (areaKeys fields)).map _).sum_eq
  rw [hperm]
  have hsplit : ∀ (l : List Nat),
      (l.map (fun a => areaCount fields a + sharedPerPerson fields)).sum =
        (l.map (fun a => areaCount fields a)).sum + l.length * sharedPerPerson fields := by
    intro l
    induction l with
    | nil => simp
    | cons x t ih =>
      simp only [List.map_cons, List.sum_cons, ih, List.length_cons]
      ring
  rw [hsplit]
  have hsum : ((areaKeys fields).map (fun a => areaCount fields a)).sum =
      ((splitByArea fields).1.map Prod.fst).length := by
    unfold areaKeys
    have := List.sum_map_count_dedup_eq_length ((splitByArea fields).1.map Prod.fst)
    rw [← this]
    exact congrArg List.sum (List.map_congr_left (fun a _ => areaCount_eq_count fields a))
  rw [hsum, List.length_map]
  rfl

theorem stats_perm (l₁ l₂ : List String) (h : l₁.Perm l₂) (b : SectionStats) :
    l₁.foldl bumpStats b = l₂.foldl bumpStats b :=
  h.foldl_eq' (fun x _ y _ z => bumpStats_rcomm z x y) b

/-! Range-table lemmas for the spec-modelled `GroupConfig`. -/

theorem rangesOverlap_symm (r s : RangeEntry) : rangesOverlap r s = rangesOverlap s r := by
  unfold rangesOverlap
  rw [Nat.max_comm, Nat.min_comm]

theorem rangesOverlap_true_iff (r s : RangeEntry) :
    rangesOverlap r s = true ↔ ∃ i, r.containsIdx i = true ∧ s.containsIdx i = true := by
  unfold rangesOverlap RangeEntry.containsIdx
  constructor
  · intro h
    refine ⟨max r.lo s.lo, ?_, ?_⟩ <;> simp_all
  · rintro ⟨i, h1, h2⟩
    simp_all
    omega

theorem findOverlap_none_pairwise (entries : List RangeEntry)
    (hfo : findOverlap entries = none) :
    ∀ r ∈ entries, ∀ s ∈ entries, r ≠ s → rangesOverlap r s = false := by
  induction entries with
  | nil =>
    intro r hr
    exact absurd hr (List.not_mem_nil r)
  | cons h t ih =>
    intro r hr s hs hne
    unfold findOverlap at hfo
    cases hfind : t.find? (fun x => rangesOverlap h x) with
    | some s' =>
      rw [hfind] at hfo
      exact Option.noConfusion hfo
    | none =>
      rw [hfind] at hfo
      have hnot : ∀ x ∈ t, rangesOverlap h x = false := by
        intro x hx
        have := List.find?_eq_none.mp hfind x hx
        simpa using this
      rcases List.mem_cons.mp hr with rfl | hr'
      · rcases List.mem_cons.mp hs with rfl | hs'
        · exact absurd rfl hne
        · exact hnot s hs'
      · rcases List.mem_cons.mp hs with rfl | hs'
        · rw [rangesOverlap_symm]
          exact hnot r hr'
        · exact ih hfo r hr' s hs' hne

/-! Membership lemmas for the Section 16 area partition. -/

theorem splitByArea_in_area (t : List String) (name : String) (a : Nat)
    (ha : areaIdx name = some a) (hmem : name ∈ t) :
    (a, name) ∈ (splitByArea t).1 := by
  induction t with
  | nil => exact absurd hmem (List.not_mem_nil name)
  | cons f t ih =>
    unfold splitByArea
    rcases List.mem_cons.mp hmem with rfl | hmem'
    · rw [ha]
      exact List.mem_cons_self _ _
    · cases hf : areaIdx f with
      | some c =>
        simp only [hf]
        exact List.mem_cons_of_mem _ (ih hmem')
      | none =>
        simp only [hf]
        exact ih hmem'

theorem splitByArea_not_shared (t : List String) (name : String) (a : Nat)
    (ha : areaIdx name = some a) : name ∉ (splitByArea t).2 := by
  induction t with
  | nil => exact List.not_mem_nil name
  | cons f t ih =>
    unfold splitByArea
    cases hf : areaIdx f with
    | some c =>
      simp only [hf]
      exact ih
    | none =>
      simp only [hf]
      intro hc
      rcases List.mem_cons.mp hc with rfl | hc'
      · rw [hf] at ha
        exact Option.noConfusion ha
      · exact ih hc'

theorem splitByArea_key_eq (t : List String) (name : String) (a : Nat)
    (ha : areaIdx name = some a) :
    ∀ b, (b, name) ∈ (splitByArea t).1 → b = a := by
  induction t with
  | nil =>
    intro b hb
    exact absurd hb (List.not_mem_nil _)
  | cons f t ih =>
    intro b hb
    unfold splitByArea at hb
    cases hf : areaIdx f with
    | some c =>
      rw [hf] at hb
      rcases List.mem_cons.mp hb with heq | hmem'
      · have h1 : b = c := congrArg Prod.fst heq
        have h2 : name = f := congrArg Prod.snd heq
        rw [← h2, ha] at hf
        injection hf with hf
        rw [h1, ← hf]
      · exact ih b hmem'
    | none =>
      rw [hf] at hb
      exact ih b hb

/-! Soundness of the `verify_field_pattern` loop partition. -/

theorem verifySplit_mem (fields : List String) :
    ∀ p i n, (p, i, n) ∈ (verifySplit fields).1 →
      p = personOfIdx i ∧ scanNum "TextField11" n = some i := by
  induction fields with
  | nil =>
    intro p i n hmem
    exact absurd hmem (List.not_mem_nil _)
  | cons f t ih =>
    intro p i n hmem
    unfold verifySplit at hmem
    cases hf : scanNum "TextField11" f with
    | some j =>
      rw [hf] at hmem
      rcases List.mem_cons.mp hmem with heq | hmem'
      · have h1 : p = personOfIdx j := congrArg (fun x => x.1) heq
        have h2 : i = j := congrArg (fun x => x.2.1) heq
        have h3 : n = f := congrArg (fun x => x.2.2) heq
        subst h2
        subst h3
        exact ⟨h1, hf⟩
      · exact ih p i n hmem'
    | none =>
      rw [hf] at hmem
      exact ih p i n hmem

theorem verifySplit_other (fields : List String) :
    ∀ n ∈ (verifySplit fields).2, scanNum "TextField11" n = none := by
  induction fields with
  | nil =>
    intro n hmem
    exact absurd hmem (List.not_mem_nil _)
  | cons f t ih =>
    intro n hmem
    unfold verifySplit at hmem
    cases hf : scanNum "TextField11" f with
    | some j =>
      rw [hf] at hmem
      exact ih n hmem
    | none =>
      rw [hf] at hmem
      rcases List.mem_cons.mp hmem with rfl | hmem'
      · exact hf
      · exact ih n hmem'

/-- On a config accepted by the constructor, at most one configured range
contains any given positional index. -/
theorem mkGroupConfig_ok_unique (entries : List RangeEntry) (cfg : GroupConfig)
    (hok : mkGroupConfig entries = Except.ok cfg) :
    ∀ (i : Nat) (r s : RangeEntry), r ∈ cfg.table → s ∈ cfg.table →
      r.containsIdx i = true → s.containsIdx i = true → r = s := by
  intro i r s hr hs h1 h2
  unfold mkGroupConfig at hok
  cases hfo : findOverlap entries with
  | some pr =>
    rw [hfo] at hok
    exact Except.noConfusion hok
  | none =>
    rw [hfo] at hok
    injection hok with hok
    subst hok
    by_contra hne
    have hfalse := findOverlap_none_pairwise entries hfo r hr s hs hne
    have htrue : rangesOverlap r s = true :=
      (rangesOverlap_true_iff r s).mpr ⟨i, h1, h2⟩
    rw [htrue] at hfalse
    exact Bool.noConfusion hfalse

/-! Small auxiliary facts used by the permutation claim. -/

theorem length_le_one_of_allpairs {α : Type} (l : List α) (hnd : l.Nodup)
    (hall : ∀ x ∈ l, ∀ y ∈ l, x = y) : l.length ≤ 1 := by
  match l with
  | [] => simp
  | [a] => simp
  | a :: b :: t =>
    exfalso
    have hab : a = b := hall a (List.mem_cons_self _ _) b (by simp)
    rw [List.nodup_cons] at hnd
    exact hnd.1 (hab ▸ List.mem_cons_self b t)

theorem perm_eq_of_short {α : Type} (l₁ l₂ : List α) (h : l₁.Perm l₂)
    (hl : l₂.length ≤ 1) : l₁ = l₂ := by
  match l₂, hl with
  | [], _ => exact h.eq_nil
  | [a], _ => exact List.perm_singleton.mp h

theorem pydiv_ne_zero (a b : ℚ) (hb : b ≠ 0) : pydiv a b = some (a / b) := by
  unfold pydiv
  rw [if_neg hb]

/-- C1.  The claim says a raw-name collision on one LogicalPath is surfaced in
the report's collision list and the earlier mapping is not overwritten.  The
code does the opposite: `mappings[logical_path] = field_name` keeps only the
later raw name, and `main` builds no collision list at all.  Witnessed by the
two distinct unemployment names that both map to
`section13.unemployment.entries[0].firstName.value`: the final dict holds only
the later name. -/
theorem claim1_counterexample :
    ("form1[0].section13_4[0].TextField11[0]" : String) ≠
      "form1[0].section13_4_3[0].TextField11[0]" ∧
    generate_logical_path "form1[0].section13_4[0].TextField11[0]" =
      some "section13.unemployment.entries[0].firstName.value" ∧
    generate_logical_path "form1[0].section13_4_3[0].TextField11[0]" =
      some "section13.unemployment.entries[0].firstName.value" ∧
    (processFields ["form1[0].section13_4[0].TextField11[0]",
        "form1[0].section13_4_3[0].TextField11[0]"]).mappings =
      [("section13.unemployment.entries[0].firstName.value",
        "form1[0].section13_4_3[0].TextField11[0]")] :=
  ⟨by decide, rfl, rfl, rfl⟩

/-- C1 (amended).  The run result keeps, for every truthy logical path, the
raw name of the *last* record in the batch that produced that path (silent
overwrite of any earlier one), and the unmapped list is exactly the falsy-path
records; no collision information exists in the result. -/
theorem claim1_amended (fields : List String) (p : String) (hp : p ≠ "") :
    lookupA (processFields fields).mappings p =
      (fields.filter (fun n => generate_logical_path n == some p)).getLast? ∧
    (processFields fields).unmapped = fields.filter (fun n => !(isMapped n)) :=
  ⟨lookup_last_law fields p hp, unmapped_law fields⟩

/-- Witness for C1 (amended) at a concrete colliding batch. -/
theorem claim1_witness :
    lookupA (processFields ["form1[0].section13_4[0].TextField11[0]",
        "form1[0].section13_4_3[0].TextField11[0]"]).mappings
      "section13.unemployment.entries[0].firstName.value" =
    (List.filter (fun n => generate_logical_path n ==
        some "section13.unemployment.entries[0].firstName.value")
      ["form1[0].section13_4[0].TextField11[0]",
       "form1[0].section13_4_3[0].TextField11[0]"]).getLast? :=
  (claim1_amended ["form1[0].section13_4[0].TextField11[0]",
    "form1[0].section13_4_3[0].TextField11[0]"]
    "section13.unemployment.entries[0].firstName.value" (by decide)).1

/-- C2.  The claim says a shared field contributes once to every group, N in
aggregate.  `calculate_field_distribution` instead divides the shared count by
the number of people (`shared_fields_count // num_people`): with three
one-field areas and one shared field, the aggregate of the per-person totals
is 3 both with and without the shared field — its contribution is 0, not
N = 3 and not 1. -/
theorem claim2_counterexample :
    numPeople ["x.#area[0].f", "x.#area[1].f", "x.#area[2].f", "x.shared"] = 3 ∧
    sharedCount ["x.#area[0].f", "x.#area[1].f", "x.#area[2].f", "x.shared"] = 1 ∧
    aggregateTotal ["x.#area[0].f", "x.#area[1].f", "x.#area[2].f", "x.shared"] = 3 ∧
    aggregateTotal ["x.#area[0].f", "x.#area[1].f", "x.#area[2].f"] = 3 ∧
    aggregateTotal ["x.#area[0].f", "x.#area[1].f", "x.#area[2].f", "x.shared"] ≠
      aggregateTotal ["x.#area[0].f", "x.#area[1].f", "x.#area[2].f"] +
        numPeople ["x.#area[0].f", "x.#area[1].f", "x.#area[2].f", "x.shared"] :=
  ⟨by decide, by decide, by decide, by decide, by decide⟩

/-- C2 (amended).  Shared fields are *divided*, not replicated: the aggregate
of the per-person totals equals the number of area-marked fields plus
`numPeople * (sharedCount / numPeople)` with Nat (floor) division, so the S
shared fields contribute `N * (S / N)` collectively, not `N` each. -/
theorem claim2_amended (fields : List String) :
    aggregateTotal fields =
      (splitByArea fields).1.length + numPeople fields * sharedPerPerson fields :=
  aggregate_law fields

/-- C3.  `verify_field_pattern` maps each `TextField11` index to exactly one
bucket: person 1, 2 or 3 exactly on the configured ranges 0-10, 11-21, 22-32,
and the explicit `Unknown` bucket `0` (printed as `Unknown person`, distinct
from every concrete person) exactly when the index is outside every range —
an out-of-range index is never silently assigned to a concrete person. -/
theorem claim3_resolution :
    (∀ idx : Nat,
      (personOfIdx idx = 1 ∨ personOfIdx idx = 2 ∨ personOfIdx idx = 3 ∨
        personOfIdx idx = 0) ∧
      (personOfIdx idx = 1 ↔ idx ≤ 10) ∧
      (personOfIdx idx = 2 ↔ 11 ≤ idx ∧ idx ≤ 21) ∧
      (personOfIdx idx = 3 ↔ 22 ≤ idx ∧ idx ≤ 32) ∧
      (personOfIdx idx = 0 ↔ 33 ≤ idx)) ∧
    (∀ (fields : List String) (p i : Nat) (n : String),
      (p, i, n) ∈ (verifySplit fields).1 →
        p = personOfIdx i ∧ scanNum "TextField11" n = some i) ∧
    (∀ (fields : List String), ∀ n ∈ (verifySplit fields).2,
      scanNum "TextField11" n = none) := by
  refine ⟨?_, fun fields => verifySplit_mem fields, fun fields => verifySplit_other fields⟩
  intro idx
  unfold personOfIdx
  split_ifs <;> refine ⟨by simp, ?_, ?_, ?_, ?_⟩ <;> simp_all <;> omega

/-- C4.  Modelled from the spec (no `GroupConfig` constructor exists under
`src/`): constructing a config whose range table has two distinct entries
sharing an index fails with `AmbiguousRangeError`, and on any successfully
constructed config at most one range contains any positional index, so
`resolveGroup` returns the unique containing range's group and never picks
between overlapping ranges. -/
theorem claim4_range_check :
    (∀ (entries : List RangeEntry) (r s : RangeEntry), r ∈ entries → s ∈ entries →
        r ≠ s → (∃ i, r.containsIdx i = true ∧ s.containsIdx i = true) →
        ∃ e, mkGroupConfig entries = Except.error e) ∧
    (∀ (entries : List RangeEntry) (cfg : GroupConfig),
        mkGroupConfig entries = Except.ok cfg →
        ∀ (i : Nat) (r s : RangeEntry), r ∈ cfg.table → s ∈ cfg.table →
          r.containsIdx i = true → s.containsIdx i = true → r = s) ∧
    (∀ (entries : List RangeEntry) (cfg : GroupConfig),
        mkGroupConfig entries = Except.ok cfg →
        ∀ (i : Nat) (r : RangeEntry), r ∈ cfg.table → r.containsIdx i = true →
          resolveGroup cfg i = some r.group) := by
  refine ⟨?_, fun entries cfg hok => mkGroupConfig_ok_unique entries cfg hok, ?_⟩
  · intro entries r s hr hs hne hex
    cases hfo : findOverlap entries with
    | some pr =>
      refine ⟨⟨pr.1, pr.2⟩, ?_⟩
      unfold mkGroupConfig
      rw [hfo]
    | none =>
      have hfalse := findOverlap_none_pairwise entries hfo r hr s hs hne
      have htrue : rangesOverlap r s = true := (rangesOverlap_true_iff r s).mpr hex
      rw [htrue] at hfalse
      exact Bool.noConfusion hfalse
  · intro entries cfg hok i r hr hcont
    unfold resolveGroup
    cases hfind : cfg.table.find? (fun e => e.containsIdx i) with
    | none =>
      have := List.find?_eq_none.mp hfind r hr
      rw [hcont] at this
      exact absurd rfl this
    | some r2 =>
      have h1 := List.find?_some hfind
      have h2 := List.mem_of_find?_eq_some hfind
      have heq := mkGroupConfig_ok_unique entries cfg hok i r2 r h2 hr h1 hcont
      rw [heq]
      rfl

/-- Witness for C4 at two concretely overlapping ranges `[0,11)` and `[5,15)`. -/
theorem claim4_witness :
    (mkGroupConfig [⟨0, 11, 0⟩, ⟨5, 15, 1⟩]).isOk = false := by
  obtain ⟨e, he⟩ := claim4_range_check.1 [⟨0, 11, 0⟩, ⟨5, 15, 1⟩]
    ⟨0, 11, 0⟩ ⟨5, 15, 1⟩ (by decide) (by decide) (by decide)
    ⟨5, by decide, by decide⟩
  rw [he]
  rfl

/-- C5.  Permutation invariance fails on the code: with two distinct raw names
mapping to the same logical path, the two orders of the same batch leave
different raw names in the final dict, so the reports differ even as
unordered collections. -/
theorem claim5_counterexample :
    List.Perm
      ["form1[0].section13_4[0].TextField11[0]",
       "form1[0].section13_4_3[0].TextField11[0]"]
      ["form1[0].section13_4_3[0].TextField11[0]",
       "form1[0].section13_4[0].TextField11[0]"] ∧
    (processFields ["form1[0].section13_4[0].TextField11[0]",
        "form1[0].section13_4_3[0].TextField11[0]"]).mappings =
      [("section13.unemployment.entries[0].firstName.value",
        "form1[0].section13_4_3[0].TextField11[0]")] ∧
    (processFields ["form1[0].section13_4_3[0].TextField11[0]",
        "form1[0].section13_4[0].TextField11[0]"]).mappings =
      [("section13.unemployment.entries[0].firstName.value",
        "form1[0].section13_4[0].TextField11[0]")] ∧
    ¬ List.Perm
      (processFields ["form1[0].section13_4[0].TextField11[0]",
        "form1[0].section13_4_3[0].TextField11[0]"]).mappings
      (processFields ["form1[0].section13_4_3[0].TextField11[0]",
        "form1[0].section13_4[0].TextField11[0]"]).mappings := by
  refine ⟨List.Perm.swap _ _ _, rfl, rfl, ?_⟩
  intro hperm
  exact absurd (List.perm_singleton.mp hperm) (by decide)

/-- C5 (amended).  On a duplicate-free batch whose mapped records produce
pairwise distinct logical paths, any permutation of the batch yields the same
path lookups, a permutation of the unmapped list, and identical section
stats; with a collision the surviving raw name depends on processing order
(see the counterexample). -/
theorem claim5_amended (fields fields' : List String)
    (hperm : fields'.Perm fields) (hnodup : fields.Nodup)
    (hinj : ∀ a ∈ fields, ∀ b ∈ fields, ∀ q : String,
      generate_logical_path a = some q → generate_logical_path b = some q → a = b)
    (p : String) (hp : p ≠ "") :
    lookupA (processFields fields').mappings p =
      lookupA (processFields fields).mappings p ∧
    (processFields fields').unmapped.Perm (processFields fields).unmapped ∧
    (processFields fields').stats = (processFields fields).stats := by
  refine ⟨?_, ?_, ?_⟩
  · rw [lookup_last_law fields' p hp, lookup_last_law fields p hp]
    have hfp : (fields'.filter (fun n => generate_logical_path n == some p)).Perm
        (fields.filter (fun n => generate_logical_path n == some p)) := hperm.filter _
    have hall : ∀ x ∈ fields.filter (fun n => generate_logical_path n == some p),
        ∀ y ∈ fields.filter (fun n => generate_logical_path n == some p), x = y := by
      intro x hx y hy
      have hx' := List.mem_filter.mp hx
      have hy' := List.mem_filter.mp hy
      exact hinj x hx'.1 y hy'.1 p (by simpa using hx'.2) (by simpa using hy'.2)
    have hlen := length_le_one_of_allpairs _ (hnodup.filter _) hall
    rw [perm_eq_of_short _ _ hfp hlen]
  · rw [unmapped_law, unmapped_law]
    exact hperm.filter _
  · rw [stats_law, stats_law]
    exact stats_perm _ _ (hperm.filter _) _

/-- Witness for C5 (amended) on a collision-free two-record batch. -/
theorem claim5_witness :
    lookupA (processFields ["form1[0].section13_5[0].TextField11[0]",
        "form1[0].section13_4[0].TextField11[0]"]).mappings
      "section13.unemployment.entries[0].firstName.value" =
    lookupA (processFields ["form1[0].section13_4[0].TextField11[0]",
        "form1[0].section13_5[0].TextField11[0]"]).mappings
      "section13.unemployment.entries[0].firstName.value" := by
  have h := claim5_amended
    ["form1[0].section13_4[0].TextField11[0]", "form1[0].section13_5[0].TextField11[0]"]
    ["form1[0].section13_5[0].TextField11[0]", "form1[0].section13_4[0].TextField11[0]"]
    (List.Perm.swap _ _ _) (by decide)
    (by
      intro a ha b hb q hqa hqb
      simp only [List.mem_cons, List.not_mem_nil, or_false] at ha hb
      rcases ha with rfl | rfl <;> rcases hb with rfl | rfl
      · rfl
      · rw [show generate_logical_path "form1[0].section13_4[0].TextField11[0]" =
            some "section13.unemployment.entries[0].firstName.value" from rfl] at hqa
        rw [show generate_logical_path "form1[0].section13_5[0].TextField11[0]" =
            some "section13.employmentRecordIssues.agencyName.value" from rfl] at hqb
        injection hqa with hqa
        injection hqb with hqb
        rw [← hqa] at hqb
        exact absurd hqb (by decide)
      · rw [show generate_logical_path "form1[0].section13_5[0].TextField11[0]" =
            some "section13.employmentRecordIssues.agencyName.value" from rfl] at hqa
        rw [show generate_logical_path "form1[0].section13_4[0].TextField11[0]" =
            some "section13.unemployment.entries[0].firstName.value" from rfl] at hqb
        injection hqa with hqa
        injection hqb with hqb
        rw [← hqa] at hqb
        exact absurd hqb (by decide)
      · rfl)
    "section13.unemployment.entries[0].firstName.value" (by decide)
  exact h.1

/-- C6.  The claim says normalization is total with an `unknown`/`-1` sentinel
Token for undecomposable names.  The code returns `None` (no result) for the
well-formed name `a.b`; its actual fallback sentinel for sectioned names with
no recognized widget is type `unknown` with index `0`, not `-1`; and the
additional-section arms (lines 591-601) return
`generate_additional_section_mapping`'s `None` directly, so even the
sectioned name `a.section13_2-2[0].Foo` yields no result at all. -/
theorem claim6_counterexample :
    generate_logical_path "a.b" = none ∧
    generate_logical_path "x.section13_9[0].Blah[0]" =
      some "section13.section9.unknown0.value" ∧
    generate_logical_path "a.section13_2-2[0].Foo" = none :=
  ⟨rfl, rfl, rfl⟩

/-- C6 (amended).  `generate_logical_path` is a total function that never
raises, but it returns `none` rather than a sentinel Token when the name has
fewer than two dot-separated parts, when no `section13` id pattern matches,
or when one of the additional-section arms (`section13_2-2`, `section13_3-2`,
`section13_4_3`) takes the name but maps no widget; a name with at least two
parts, a matching id pattern and none of those three markers always receives
some path (with `unknown0`, index `0`, as the undecomposable-structure
fallback). -/
theorem claim6_amended (name : String) (hdot : 2 ≤ (name.data.splitOn '.').length)
    (hsec : scanSecId name.data ≠ none)
    (h22 : strContains name "section13_2-2" = false)
    (h32 : strContains name "section13_3-2" = false)
    (h43 : strContains name "section13_4_3" = false) :
    (generate_logical_path name).isSome = true :=
  glp_total_of_sec name hdot hsec h22 h32 h43

/-- Witness for C6 (amended) at a sectioned name with no recognized widget. -/
theorem claim6_witness :
    (generate_logical_path "x.section13_9[0].Blah[0]").isSome = true :=
  claim6_amended "x.section13_9[0].Blah[0]" (by decide) (by decide) rfl rfl rfl

/-- C7.  In `calculate_field_distribution` the explicit `#area[k]` marker is
authoritative: a field whose name carries one is placed in exactly that area's
bucket, never in the shared list and never in any other bucket, regardless of
any positional index in the name (the witness uses `#area[1]` with
`TextField11[5]`, whose index range would suggest person 1). -/
theorem claim7_explicit_area (fields : List String) (name : String) (a : Nat)
    (hmem : name ∈ fields) (ha : areaIdx name = some a) :
    (a, name) ∈ (splitByArea fields).1 ∧ name ∉ (splitByArea fields).2 ∧
      ∀ b, (b, name) ∈ (splitByArea fields).1 → b = a :=
  ⟨splitByArea_in_area fields name a ha hmem, splitByArea_not_shared fields name a ha,
   splitByArea_key_eq fields name a ha⟩

/-- Witness for C7 at a name carrying both an explicit `#area[1]` marker and a
`TextField11[5]` index that the inferred ranges would assign to person 1. -/
theorem claim7_witness :
    (1, "q.Section16_3[0].#area[1].TextField11[5]") ∈
      (splitByArea ["q.Section16_3[0].#area[1].TextField11[5]"]).1 :=
  (claim7_explicit_area ["q.Section16_3[0].#area[1].TextField11[5]"]
    "q.Section16_3[0].#area[1].TextField11[5]" 1
    (List.mem_cons_self _ _) rfl).1

/-- C8.  `verify_coverage` never throws: every division is guarded by the
source's `if ... else 0` conditionals, so a result record is produced for
every input, including empty sets, empty per-type lists and zero totals;
missing fields and coverage deltas are carried in the result. -/
theorem claim8_never_throws (fa : FieldAnalysis) (im : InterfaceMappings) :
    (verify_coverage fa im).isSome = true := by
  unfold verify_coverage
  by_cases h1 : fa.string_values = ∅ <;>
    by_cases h2 : fa.byType "PDFCheckBox" = [] <;>
      by_cases h3 : fa.byType "PDFRadioGroup" = [] <;>
        by_cases h4 : fa.byType "PDFDropdown" = [] <;>
          by_cases h5 : fa.total_fields = 0 <;>
            simp [h1, h2, h3, h4, h5, pydiv, Nat.cast_eq_zero, Finset.card_eq_zero,
              List.length_eq_zero, Option.bind]

/-- C9.  The claim says classification and grouping never depend on the
free-text label.  `analyze_section16_3_fields` reads `field['label'].lower()`
and keys its `entry #N` idioms off it: the same raw name lands in `person1`
with label `Entry #1 ...` but in `shared` with an empty label. -/
theorem claim9_counterexample :
    analyze16_3_group "form1[0].Section16_3[0].TextField11[0]" "Entry #1 first name" =
      "person1" ∧
    analyze16_3_group "form1[0].Section16_3[0].TextField11[0]" "" = "shared" ∧
    analyze16_3_group "form1[0].Section16_3[0].TextField11[0]" "Entry #1 first name" ≠
      analyze16_3_group "form1[0].Section16_3[0].TextField11[0]" "" :=
  ⟨rfl, rfl, by decide⟩

/-- C9 (amended).  The group bucket is a deterministic function of the raw
name together with the lowercased label — two fields agreeing on name and
lowercased label are always grouped alike, in both Section 16 analyzers — but
it is not label-free (see the counterexample). -/
theorem claim9_amended (name l1 l2 : String) (h : strLower l1 = strLower l2) :
    analyze16_3_group name l1 = analyze16_3_group name l2 ∧
    analyze16_1_group name l1 = analyze16_1_group name l2 := by
  constructor <;> simp only [analyze16_3_group, analyze16_1_group, h]

/-- Witness for C9 (amended): labels differing only in case group alike. -/
theorem claim9_witness :
    analyze16_3_group "form1[0].Section16_3[0].TextField11[0]" "Entry #1" =
      analyze16_3_group "form1[0].Section16_3[0].TextField11[0]" "ENTRY #1" :=
  (claim9_amended "form1[0].Section16_3[0].TextField11[0]" "Entry #1" "ENTRY #1" rfl).1

/-- C10.  A `section13_4_3` name with no recognized widget pattern falls to
the generic fallback and gets `section13.section4.unknown0.value`, which is
not under `section13.unemployment.entries[0]` — refuting the claim that every
path produced for such names lies under it. -/
theorem claim10_counterexample :
    generate_logical_path "a.section13_4_3[0].Foo" =
      some "section13.section4.unknown0.value" ∧
    ¬ ("section13.unemployment.entries[0]".data <+:
        "section13.section4.unknown0.value".data) :=
  ⟨rfl, fun hc => Bool.noConfusion ((isPrefixOf_true_iff _ _).mpr hc)⟩

/-- C10 (amended).  The `section13_4_3` arm at line 599 is dead code: no
produced path ever lies under `section13.unemploymentAdditional` (because a
name containing `section13_4_3` also contains `section13_4` and is taken by
the earlier arm); a `section13_4_3` name carrying none of the earlier section
markers whose widget patterns match is mapped by the unemployment arm under
`section13.unemployment.entries[0]`; and therefore the base and additional
unemployment forms can collide on one logical path. -/
theorem claim10_amended :
    (∀ name p, generate_logical_path name = some p →
        ¬ "section13.unemploymentAdditional".data <+: p.data) ∧
    (∀ name p, strContains name "section13_4_3" = true →
        strContains name "section_13_1-2" = false →
        strContains name "section13_2" = false →
        strContains name "section13_3" = false →
        2 ≤ (name.data.splitOn '.').length →
        unemploymentBranch name = some p →
        generate_logical_path name = some p ∧
          "section13.unemployment.entries[0].".data <+: p.data) ∧
    (generate_logical_path "form1[0].section13_4[0].TextField11[0]" =
        some "section13.unemployment.entries[0].firstName.value" ∧
      generate_logical_path "form1[0].section13_4_3[0].TextField11[0]" =
        some "section13.unemployment.entries[0].firstName.value" ∧
      ("form1[0].section13_4[0].TextField11[0]" : String) ≠
        "form1[0].section13_4_3[0].TextField11[0]") := by
  refine ⟨glp_no_unempAdd, ?_, rfl, rfl, by decide⟩
  intro name p h1343 hfed h2 h3 hdot hb
  exact ⟨glp_1343_dispatch name p h1343 hfed h2 h3 hdot hb,
    unemploymentBranch_shape name p hb⟩

/-- Witness for C10 (amended) at a concrete `section13_4_3` name. -/
theorem claim10_witness :
    generate_logical_path "form1[0].section13_4_3[0].TextField11[1]" =
      some "section13.unemployment.entries[0].lastName.value" :=
  (claim10_amended.2.1 "form1[0].section13_4_3[0].TextField11[1]"
    "section13.unemployment.entries[0].lastName.value" rfl rfl rfl rfl
    (by decide) rfl).1
